import Mathlib

/-!
Verification of the conversation-orchestration core of the study-mode chat
application (`src/streamlit_app.py`).  The module-level Streamlit script is
embedded shallowly: session state becomes an explicit `AppState` record, the
input-handling block becomes the pure function `submitTurn`, the provider call
with its `try/except` classification becomes `callGemini` over an
`Except`-valued provider outcome, and the upload / clear-chat handlers become
pure state transformers.  String literals are copied verbatim from the source.
-/

/-- Role of a conversation entry, as stored in `st.session_state.conversation`
(`"user"` or `"model"`). -/
inductive Role where
  | user
  | model
deriving DecidableEq, Repr

/-- One entry of the conversation list: `{"role": ..., "content": ...}`. -/
structure Turn where
  role : Role
  content : String
deriving DecidableEq, Repr

/-- The session state the handlers read and write:
`st.session_state.conversation` and `st.session_state.file_content`. -/
structure AppState where
  conversation : List Turn
  file_content : String
deriving DecidableEq, Repr

/-- The study mode chosen by the radio widget (line 68). -/
inductive Mode where
  | Explain
  | Quiz
  | Review
deriving DecidableEq, Repr

/-- Initial session state (lines 25-28): empty conversation, empty file text. -/
def initialState : AppState := { conversation := [], file_content := "" }

/-- Boolean check that a list starts with the pattern list. -/
def isPrefL : List Char → List Char → Bool
  | [], _ => true
  | _ :: _, [] => false
  | a :: p, b :: l => a == b && isPrefL p l

/-- Boolean substring check on character lists (Python's `pat in s`). -/
def hasSubL (p : List Char) : List Char → Bool
  | [] => isPrefL p []
  | b :: l => isPrefL p (b :: l) || hasSubL p l

/-- Python's `pat in s` on strings. -/
def strHas (s pat : String) : Bool := hasSubL pat.data s.data

/-- Quota-error text returned by `call_gemini` (line 90). -/
def quotaMessage : String :=
  "⚠️ Oops! You’ve used up today’s free quota (50 requests/day). Please try again tomorrow, or upgrade your Gemini plan for more usage."

/-- Permission-error text returned by `call_gemini` (line 92). -/
def permissionMessage : String :=
  "⚠️ API key is invalid or missing required permissions. Check your Google AI Studio settings."

/-- Generic error text returned by `call_gemini` (line 94). -/
def otherMessage (e : String) : String := "⚠️ Something went wrong: " ++ e

/-- The `except` branch of `call_gemini` (lines 87-94): classify the error
string and return a user-visible message. -/
def formatError (e : String) : String :=
  if strHas e "RESOURCE_EXHAUSTED" then quotaMessage
  else if strHas e "PERMISSION_DENIED" then permissionMessage
  else otherMessage e

/-- `call_gemini` (lines 73-94): the provider call either returns text or
raises; the exception is caught and formatted.  The outcome of the external
call is passed in as an `Except` value. -/
def callGemini (outcome : Except String String) : String :=
  match outcome with
  | .ok t => t
  | .error e => formatError e

/-- Mode-specific instruction prefix of the system prompt (lines 124-129),
up to and including the `"Reference notes:\n"` header. -/
def modeInstr : Mode → String
  | .Explain => "You are a teacher. Explain this step by step in simple terms. Do not ask follow-up questions.\n\nReference notes:\n"
  | .Quiz => "You are a quiz master. Create 3-5 quiz questions (answers hidden). Keep it concise.\n\nReference notes:\n"
  | .Review => "You are a study coach. Summarize and review this clearly. End after summary.\n\nReference notes:\n"

/-- `system_prompt` (lines 124-129): instruction template with the uploaded
file text interpolated at the end. -/
def systemPrompt (m : Mode) (ctx : String) : String := modeInstr m ++ ctx

/-- Content of the second appended user turn (line 132):
`f"{system_prompt}\n\nTopic: {query_text}"`. -/
def fullPrompt (m : Mode) (ctx q : String) : String :=
  systemPrompt m ctx ++ "\n\nTopic: " ++ q

/-- Default query text substituted when only an image is sent (line 121). -/
def imageQueryText : String :=
  "Please describe and explain this image, and give 2 short flashcards."

/-- Placeholder content of the user turn when only an image is sent (line 120). -/
def imagePlaceholder : String := "📷 Sent an image"

/-- Python truthiness of `user_input` (`None` and `""` are falsy). -/
def isTruthy (o : Option String) : Bool :=
  match o with
  | none => false
  | some s => !(s == "")

/-- `query_text` (lines 116-121): the raw input when truthy, else the fixed
image prompt. -/
def queryOf (userInput : Option String) : String :=
  match userInput with
  | some s => if s == "" then imageQueryText else s
  | none => imageQueryText

/-- The first appended user turn (lines 117 and 120). -/
def userTurnOf (userInput : Option String) : Turn :=
  if isTruthy userInput then { role := .user, content := userInput.getD "" }
  else { role := .user, content := imagePlaceholder }

/-- The conversation value passed to `call_gemini` at line 135: the previous
conversation with the raw user turn and the prompt turn already appended. -/
def dispatchPayload (s : AppState) (ui : Option String) (m : Mode) : List Turn :=
  s.conversation ++
    [userTurnOf ui,
     { role := .user, content := fullPrompt m s.file_content (queryOf ui) }]

/-- The input-handling block (lines 114-137).  `gen` is the external provider:
given the dispatched conversation it either returns text or fails with an
error string (the exception text).  The block appends the user turn and the
prompt turn, dispatches, and appends the model turn with the reply. -/
def submitTurn (gen : List Turn → Except String String) (s : AppState)
    (ui : Option String) (imagePresent : Bool) (m : Mode) : AppState :=
  if isTruthy ui || imagePresent then
    let payload := dispatchPayload s ui m
    let reply := callGemini (gen payload)
    { s with conversation := payload ++ [{ role := .model, content := reply }] }
  else s

/-- The Clear Chat handler (lines 64-65): empties the conversation only. -/
def clearChat (s : AppState) : AppState := { s with conversation := [] }

/-- The file-upload handler (lines 32-49).  The extraction pipeline (pdf, txt
or docx) is external; its outcome is passed in as an `Except` value.  On
success the extracted text replaces `file_content`; on failure an error
message is shown and the state is untouched. -/
def handleUpload (s : AppState) (extraction : Except String String) :
    AppState × Option String :=
  match extraction with
  | .ok text => ({ s with file_content := text }, none)
  | .error e => (s, some ("Failed to process uploaded file: " ++ e))

/-- Which provider produced the answer. -/
inductive Provider where
  | primary
  | secondary
deriving DecidableEq, Repr

/-- Result of one orchestrated generation: the user-visible text and the
provider that produced it. -/
structure ProviderResult where
  text : String
  provider_used : Provider
deriving DecidableEq, Repr

/-- Classification of a raw provider error string, mirroring the substring
tests of `call_gemini` (lines 89-94, tested in this order). -/
inductive ErrClass where
  | quotaExceeded
  | permissionDenied
  | otherErr (msg : String)
deriving DecidableEq, Repr

/-- Error classification as performed by `call_gemini` (lines 89-94):
`RESOURCE_EXHAUSTED` is tested first, then `PERMISSION_DENIED`. -/
def classify (e : String) : ErrClass :=
  if strHas e "RESOURCE_EXHAUSTED" then .quotaExceeded
  else if strHas e "PERMISSION_DENIED" then .permissionDenied
  else .otherErr e

/-- Modelled from the spec: the provenance marker appended to
secondary-provider answers; the dual-provider variant is absent from `src/`,
so the exact marker text is not fixed by the source. -/
def secondaryMarker : String := " [answered by fallback provider]"

/-- Modelled from the spec: the combined error surfaced when the fallback
attempt also fails. -/
def combinedFailureText (e1 e2 : String) : String :=
  otherMessage (e1 ++ "; fallback also failed: " ++ e2)

/-- Modelled from the spec: the dual-provider generation of the latest
variant (absent from `src/`).  On primary success the text is returned; a
primary failure classified `QuotaExceeded` is retried once on the secondary
provider when one is configured, its success tagged with the provenance
marker and its failure surfaced as a combined error; `PermissionDenied` and
other failures are surfaced directly with no fallback, using the same
user-visible messages as `call_gemini`. -/
def generateWithFallback (primaryOutcome : Except String String)
    (secondaryOutcome : Option (Except String String)) : ProviderResult :=
  match primaryOutcome with
  | .ok t => { text := t, provider_used := .primary }
  | .error e =>
    match classify e with
    | .quotaExceeded =>
      match secondaryOutcome with
      | some (.ok t) => { text := t ++ secondaryMarker, provider_used := .secondary }
      | some (.error e2) =>
        { text := combinedFailureText e e2, provider_used := .secondary }
      | none => { text := quotaMessage, provider_used := .primary }
    | .permissionDenied => { text := permissionMessage, provider_used := .primary }
    | .otherErr _ => { text := otherMessage e, provider_used := .primary }

/-- Modelled from the spec: `submitTurn` of the dual-provider variant.  Turn
handling and prompt construction are those of the input-handling block
(lines 114-137); generation goes through `generateWithFallback`, the
secondary provider being retried on the same dispatched request. -/
def submitTurnDual (pg : List Turn → Except String String)
    (sg : Option (List Turn → Except String String)) (s : AppState)
    (ui : Option String) (imagePresent : Bool) (m : Mode) : AppState :=
  if isTruthy ui || imagePresent then
    let payload := dispatchPayload s ui m
    let r := generateWithFallback (pg payload) (sg.map (fun g => g payload))
    { s with conversation := payload ++ [{ role := .model, content := r.text }] }
  else s

/-- A pattern that starts a list still starts it after extending on the right. -/
theorem isPrefL_append (p l t : List Char) (h : isPrefL p l = true) :
    isPrefL p (l ++ t) = true := by
  induction p generalizing l with
  | nil => simp [isPrefL]
  | cons a p ih =>
    cases l with
    | nil => simp [isPrefL] at h
    | cons b l =>
      simp only [isPrefL, Bool.and_eq_true, beq_iff_eq] at h
      simp only [List.cons_append, isPrefL, Bool.and_eq_true, beq_iff_eq]
      exact ⟨h.1, ih l h.2⟩

/-- A substring of the left part is a substring of the concatenation. -/
theorem hasSubL_append_left (p l t : List Char) (h : hasSubL p l = true) :
    hasSubL p (l ++ t) = true := by
  induction l with
  | nil =>
    cases t with
    | nil => simpa using h
    | cons b t =>
      simp only [hasSubL] at h
      simp only [List.nil_append, hasSubL, Bool.or_eq_true]
      exact Or.inl (isPrefL_append p [] (b :: t) h)
  | cons b l ih =>
    simp only [hasSubL, Bool.or_eq_true] at h
    simp only [List.cons_append, hasSubL, Bool.or_eq_true]
    cases h with
    | inl h => exact Or.inl (isPrefL_append p (b :: l) t h)
    | inr h => exact Or.inr (ih h)

/-- A substring of the right part is a substring of the concatenation. -/
theorem hasSubL_append_right (p l t : List Char) (h : hasSubL p t = true) :
    hasSubL p (l ++ t) = true := by
  induction l with
  | nil => simpa using h
  | cons b l ih =>
    simp only [List.cons_append, hasSubL, Bool.or_eq_true]
    exact Or.inr ih

/-- `strHas` distributes over appending on the left. -/
theorem strHas_append_left (a b pat : String) (h : strHas a pat = true) :
    strHas (a ++ b) pat = true := by
  simpa [strHas, String.data_append] using hasSubL_append_left pat.data a.data b.data h

/-- `strHas` distributes over appending on the right. -/
theorem strHas_append_right (a b pat : String) (h : strHas b pat = true) :
    strHas (a ++ b) pat = true := by
  simpa [strHas, String.data_append] using hasSubL_append_right pat.data a.data b.data h

/-- C8: `resetConversation` (the Clear Chat handler) always yields an empty
ConversationState, regardless of prior length; it is a total function with no
error conditions. -/
theorem claim_C8 (s : AppState) : (clearChat s).conversation = [] := rfl

/-- C9: the Clear Chat handler leaves `file_content` (the ReferenceContext)
unchanged: after the reset it equals its value before the reset. -/
theorem claim_C9 (s : AppState) : (clearChat s).file_content = s.file_content := rfl

/-- C7: for every prior state, an upload whose extraction fails reports the
error to the user and leaves the state — in particular `file_content` —
exactly as it was. -/
theorem claim_C7 (s : AppState) (e : String) :
    (handleUpload s (Except.error e)).1.file_content = s.file_content ∧
    (handleUpload s (Except.error e)).1 = s ∧
    (handleUpload s (Except.error e)).2 =
      some ("Failed to process uploaded file: " ++ e) :=
  ⟨rfl, rfl, rfl⟩

/-- C10: the error classification tests the quota substring before the
permission substring: any error string containing both `RESOURCE_EXHAUSTED`
and `PERMISSION_DENIED` is formatted as the quota message, which differs from
the permission message. -/
theorem claim_C10 (e : String)
    (h1 : strHas e "RESOURCE_EXHAUSTED" = true)
    (_h2 : strHas e "PERMISSION_DENIED" = true) :
    formatError e = quotaMessage ∧ quotaMessage ≠ permissionMessage := by
  refine ⟨?_, by decide⟩
  simp [formatError, h1]

/-- Concrete instance of `claim_C10`: an error string containing both markers
is classified as a quota error. -/
theorem claim_C10_witness :
    strHas "code: RESOURCE_EXHAUSTED, also PERMISSION_DENIED" "RESOURCE_EXHAUSTED" = true ∧
    strHas "code: RESOURCE_EXHAUSTED, also PERMISSION_DENIED" "PERMISSION_DENIED" = true ∧
    formatError "code: RESOURCE_EXHAUSTED, also PERMISSION_DENIED" = quotaMessage :=
  ⟨by decide, by decide,
   (claim_C10 "code: RESOURCE_EXHAUSTED, also PERMISSION_DENIED" (by decide) (by decide)).1⟩

/-- C4: every constructed prompt is the mode-specific instruction template,
then the reference context verbatim and un-truncated, then the topic header
and the user's text; the prompt turn built by the input handler uses exactly
this prompt on the stored `file_content`; and for mode Quiz with topic
"Photosynthesis" the prompt contains the substrings "3-5 quiz questions" and
"Photosynthesis" whatever the context. -/
theorem claim_C4 :
    (∀ (m : Mode) (ctx q : String),
        fullPrompt m ctx q = modeInstr m ++ (ctx ++ ("\n\nTopic: " ++ q))) ∧
    (∀ (s : AppState) (ui : Option String) (m : Mode),
        dispatchPayload s ui m = s.conversation ++
          [userTurnOf ui,
           { role := Role.user,
             content := fullPrompt m s.file_content (queryOf ui) }]) ∧
    (∀ ctx : String,
        strHas (fullPrompt Mode.Quiz ctx "Photosynthesis") "3-5 quiz questions" = true ∧
        strHas (fullPrompt Mode.Quiz ctx "Photosynthesis") "Photosynthesis" = true) := by
  refine ⟨?_, fun s ui m => rfl, ?_⟩
  · intro m ctx q
    simp [fullPrompt, systemPrompt, String.append_assoc]
  · intro ctx
    constructor
    · show strHas (((modeInstr Mode.Quiz ++ ctx) ++ "\n\nTopic: ") ++ "Photosynthesis")
        "3-5 quiz questions" = true
      exact strHas_append_left _ _ _
        (strHas_append_left _ _ _ (strHas_append_left _ _ _ (by decide)))
    · show strHas (((modeInstr Mode.Quiz ++ ctx) ++ "\n\nTopic: ") ++ "Photosynthesis")
        "Photosynthesis" = true
      exact strHas_append_right _ _ _ (by decide)

/-- An error classified as permission-denied contains `PERMISSION_DENIED`
but not `RESOURCE_EXHAUSTED`, hence is formatted as the permission message. -/
theorem formatError_of_classify_perm (e : String)
    (h : classify e = ErrClass.permissionDenied) :
    formatError e = permissionMessage := by
  unfold classify at h
  unfold formatError
  split at h
  · exact absurd h (by simp)
  · split at h
    · simp_all [formatError]
    · exact absurd h (by simp)

/-- C6: a primary failure classified `PermissionDenied` never consults the
secondary provider — the result is the same for every configured secondary
outcome and is attributed to the primary provider — and the surfaced message
references the API key and its permissions. -/
theorem claim_C6 (e : String) (h : classify e = ErrClass.permissionDenied)
    (sec : Option (Except String String)) :
    generateWithFallback (Except.error e) sec =
      { text := permissionMessage, provider_used := Provider.primary } ∧
    formatError e = permissionMessage ∧
    strHas permissionMessage "permissions" = true ∧
    strHas permissionMessage "API key" = true := by
  refine ⟨?_, formatError_of_classify_perm e h, by decide, by decide⟩
  simp [generateWithFallback, h]

/-- Concrete instance of `claim_C6` at the error string `PERMISSION_DENIED`
with a configured secondary provider that would succeed. -/
theorem claim_C6_witness :
    classify "PERMISSION_DENIED" = ErrClass.permissionDenied ∧
    generateWithFallback (Except.error "PERMISSION_DENIED") (some (Except.ok "OK")) =
      { text := permissionMessage, provider_used := Provider.primary } :=
  ⟨by decide, (claim_C6 "PERMISSION_DENIED" (by decide) (some (Except.ok "OK"))).1⟩

/-- C2: when the primary provider fails with a quota-classified error and the
configured secondary provider succeeds with "OK", the orchestrated result is
"OK" followed by the secondary-provenance marker, attributed to the secondary
provider, and the final assistant turn of the submitted conversation carries
exactly that content. -/
theorem claim_C2 (e : String) (h : classify e = ErrClass.quotaExceeded)
    (s : AppState) (ui : Option String) (img : Bool) (m : Mode)
    (hval : (isTruthy ui || img) = true) :
    generateWithFallback (Except.error e) (some (Except.ok "OK")) =
      { text := "OK" ++ secondaryMarker, provider_used := Provider.secondary } ∧
    (submitTurnDual (fun _ => Except.error e) (some (fun _ => Except.ok "OK"))
        s ui img m).conversation.getLast? =
      some { role := Role.model, content := "OK" ++ secondaryMarker } := by
  constructor
  · simp [generateWithFallback, h]
  · simp [submitTurnDual, hval, generateWithFallback, h, List.getLast?_concat]

/-- Concrete instance of `claim_C2`: primary fails with `RESOURCE_EXHAUSTED`,
the secondary answers "OK", and the assistant turn is "OK" plus the marker. -/
theorem claim_C2_witness :
    classify "RESOURCE_EXHAUSTED" = ErrClass.quotaExceeded ∧
    (isTruthy (some "hi") || false) = true ∧
    (submitTurnDual (fun _ => Except.error "RESOURCE_EXHAUSTED")
        (some (fun _ => Except.ok "OK")) initialState (some "hi") false
        Mode.Quiz).conversation.getLast? =
      some { role := Role.model, content := "OK" ++ secondaryMarker } :=
  ⟨by decide, by decide,
   (claim_C2 "RESOURCE_EXHAUSTED" (by decide) initialState (some "hi") false
     Mode.Quiz (by decide)).2⟩

/-- Every formatted error message is user-visible text flagged with the
warning sign. -/
theorem formatError_flagged (e : String) : strHas (formatError e) "⚠️" = true := by
  unfold formatError
  split
  · decide
  · split
    · decide
    · exact strHas_append_left "⚠️ Something went wrong: " e "⚠️" (by decide)

/-- C3: the conversation handed to the provider already contains the user
turn; whenever the provider fails, the failure is caught and converted into a
formatted, warning-flagged message appended as the assistant turn; the
submitted state is obtained purely by appending, so the handler is total and
never propagates the failure. -/
theorem claim_C3 (gen : List Turn → Except String String) (s : AppState)
    (ui : Option String) (img : Bool) (m : Mode) (e : String)
    (hval : (isTruthy ui || img) = true)
    (herr : gen (dispatchPayload s ui m) = Except.error e) :
    userTurnOf ui ∈ dispatchPayload s ui m ∧
    (submitTurn gen s ui img m).conversation =
      dispatchPayload s ui m ++ [{ role := Role.model, content := formatError e }] ∧
    strHas (formatError e) "⚠️" = true := by
  refine ⟨?_, ?_, formatError_flagged e⟩
  · simp [dispatchPayload]
  · simp [submitTurn, hval, herr, callGemini]

/-- Concrete instance of `claim_C3`: a provider that always raises "boom"
still yields a state ending in a formatted assistant turn. -/
theorem claim_C3_witness :
    (isTruthy (some "q") || false) = true ∧
    (submitTurn (fun _ => Except.error "boom") initialState (some "q") false
        Mode.Explain).conversation =
      dispatchPayload initialState (some "q") Mode.Explain ++
        [{ role := Role.model, content := formatError "boom" }] :=
  ⟨by decide,
   (claim_C3 (fun _ => Except.error "boom") initialState (some "q") false
     Mode.Explain "boom" (by decide) rfl).2.1⟩

/-- C1 counterexample: starting from the empty conversation, one submission
with the valid text "Hi" leaves a conversation whose user-turn count is 2,
not 1 — the handler appends both the raw input and the constructed prompt as
user turns. -/
theorem claim_C1_counterexample :
    initialState.conversation = [] ∧
    ((submitTurn (fun _ => Except.ok "reply") initialState (some "Hi") false
        Mode.Explain).conversation.filter (fun t => t.role == Role.user)).length = 2 ∧
    ¬ ((submitTurn (fun _ => Except.ok "reply") initialState (some "Hi") false
        Mode.Explain).conversation.filter (fun t => t.role == Role.user)).length = 1 := by
  refine ⟨rfl, ?_, ?_⟩ <;> decide

/-- C1 (amended): a submission with valid non-empty text appends exactly two
user turns — the raw input and the constructed prompt — and exactly one
assistant (model) turn; the previous turns survive unchanged as a prefix, so
the conversation only grows by these appends, and the only other mutations
are Clear Chat's reset to empty and the upload handler, which never touches
the conversation. -/
theorem claim_C1 (gen : List Turn → Except String String) (s : AppState)
    (t : String) (img : Bool) (m : Mode) (h : ¬ t = "") :
    (submitTurn gen s (some t) img m).conversation =
      s.conversation ++
        [{ role := Role.user, content := t },
         { role := Role.user, content := fullPrompt m s.file_content t },
         { role := Role.model,
           content := callGemini (gen (dispatchPayload s (some t) m)) }] ∧
    ((submitTurn gen s (some t) img m).conversation.filter
        (fun x => x.role == Role.user)).length =
      (s.conversation.filter (fun x => x.role == Role.user)).length + 2 ∧
    ((submitTurn gen s (some t) img m).conversation.filter
        (fun x => x.role == Role.model)).length =
      (s.conversation.filter (fun x => x.role == Role.model)).length + 1 ∧
    (∀ s' : AppState, (clearChat s').conversation = []) ∧
    (∀ (s' : AppState) (ex : Except String String),
        (handleUpload s' ex).1.conversation = s'.conversation) := by
  have ht : isTruthy (some t) = true := by simp [isTruthy, h]
  have hq : queryOf (some t) = t := by simp [queryOf, h]
  have hu : userTurnOf (some t) = { role := Role.user, content := t } := by
    simp [userTurnOf, ht, Option.getD]
  have hmain : (submitTurn gen s (some t) img m).conversation =
      s.conversation ++
        [{ role := Role.user, content := t },
         { role := Role.user, content := fullPrompt m s.file_content t },
         { role := Role.model,
           content := callGemini (gen (dispatchPayload s (some t) m)) }] := by
    simp [submitTurn, ht, dispatchPayload, hu, hq]
  refine ⟨hmain, ?_, ?_, fun s' => rfl, fun s' ex => ?_⟩
  · rw [hmain]
    simp [List.filter_append]
  · rw [hmain]
    simp [List.filter_append]
  · cases ex <;> rfl

/-- Concrete instance of `claim_C1`: submitting "Hi" on the empty state
yields exactly the three appended turns. -/
theorem claim_C1_witness :
    ¬ "Hi" = "" ∧
    (submitTurn (fun _ => Except.ok "reply") initialState (some "Hi") false
        Mode.Explain).conversation =
      initialState.conversation ++
        [{ role := Role.user, content := "Hi" },
         { role := Role.user, content := fullPrompt Mode.Explain
             initialState.file_content "Hi" },
         { role := Role.model,
           content := callGemini ((fun _ => Except.ok "reply")
             (dispatchPayload initialState (some "Hi") Mode.Explain)) }] :=
  ⟨by decide,
   (claim_C1 (fun _ => Except.ok "reply") initialState "Hi" false Mode.Explain
     (by decide)).1⟩

set_option maxRecDepth 4096 in
/-- C5 counterexample: with no text input and an image present, the query
text substituted by the handler is "Please describe and explain this image,
and give 2 short flashcards." — the string "describe and explain this image,
produce 2 flashcards" claimed by the spec is not the query text and does not
even occur in it. -/
theorem claim_C5_counterexample :
    (submitTurn (fun _ => Except.ok "r") initialState none true
        Mode.Explain).conversation =
      [{ role := Role.user, content := imagePlaceholder },
       { role := Role.user, content := fullPrompt Mode.Explain "" imageQueryText },
       { role := Role.model, content := "r" }] ∧
    ¬ imageQueryText = "describe and explain this image, produce 2 flashcards" ∧
    strHas imageQueryText "describe and explain this image, produce 2 flashcards"
      = false := by
  refine ⟨?_, ?_, ?_⟩ <;> decide

/-- C5 (amended): with no text input and an image present, the handler
substitutes the fixed default prompt "Please describe and explain this image,
and give 2 short flashcards." as the query text sent to the provider, and
appends a user turn with the placeholder "📷 Sent an image". -/
theorem claim_C5 (gen : List Turn → Except String String) (s : AppState)
    (m : Mode) :
    (submitTurn gen s none true m).conversation =
      s.conversation ++
        [{ role := Role.user, content := imagePlaceholder },
         { role := Role.user, content := fullPrompt m s.file_content imageQueryText },
         { role := Role.model,
           content := callGemini (gen (dispatchPayload s none m)) }] ∧
    imageQueryText =
      "Please describe and explain this image, and give 2 short flashcards." ∧
    imagePlaceholder = "📷 Sent an image" :=
  ⟨by simp [submitTurn, isTruthy, dispatchPayload, userTurnOf, queryOf], rfl, rfl⟩
